import Mathlib

/-!
Verification development for the provider routing and fallback layer of the
CopySpell AI repository (src/core/ai_router.py, src/core/rate_limiter.py,
src/providers/base.py, src/providers/groq.py).

Modelling conventions:
* Timestamps and durations are integers (abstract time units).  The Python
  source uses `time.time()` floats; every property of interest is about
  orderings and sums of times, so integer time is faithful for those.
  Each operation that reads the clock takes the current time `now` as an
  explicit argument, and time is held constant inside one routed call.
* Python truthiness is modelled explicitly: `if x:` on an optional number is
  false for `None` and for `0`; on an optional string it is false for `None`
  and for `""` (see `optTruthy` / `strTruthy`).
* Python dicts are modelled as association lists (`lookupA` / `updateAssoc`);
  `defaultdict` reads yield the dataclass default.
* Coroutines: each `async` operation is a pure state transformer.  Sleeping
  (`asyncio.sleep`) does not change any modelled state, so it is elided; the
  one place where a sleep's *eventual* effect matters (the wait loop inside
  `RateLimiter.acquire`) is modelled by the state the loop has when it exits,
  as explained at `RateLimiter.acquire`.
* Exceptions are modelled as explicit outcome constructors
  (`AcquireResult.timeout`, `AdapterBehavior.raise`).
-/

/-- Python truthiness of an optional number: `None` and `0` are falsy. -/
def optTruthy (o : Option Int) : Bool :=
  match o with
  | none => false
  | some x => decide (x ≠ 0)

/-- Python truthiness of an optional string: `None` and `""` are falsy. -/
def strTruthy (o : Option String) : Bool :=
  match o with
  | none => false
  | some s => decide (s ≠ "")

/-- Association-list lookup with decidable string keys (Python dict read). -/
def lookupA {β : Type} : List (String × β) → String → Option β
  | [], _ => none
  | (k0, v0) :: rest, k => if k0 = k then some v0 else lookupA rest k

/-- Association-list write (Python dict assignment): replaces the first
binding of the key, or appends a new binding. -/
def updateAssoc {β : Type} : List (String × β) → String → β → List (String × β)
  | [], k, v => [(k, v)]
  | (k0, v0) :: rest, k, v =>
    if k0 = k then (k, v) :: rest else (k0, v0) :: updateAssoc rest k v

/-- Contiguous-sublist test on character lists (Python `sub in s`). -/
def listContains (sub : List Char) : List Char → Bool
  | [] => sub.isEmpty
  | c :: rest => sub.isPrefixOf (c :: rest) || listContains sub rest

/-- Python `sub in s` on strings. -/
def containsSubstring (s sub : String) : Bool :=
  listContains sub.data s.data

/-- Python `str.lower()`: per-character lowering (what `String.toLower` does,
stated over the character list so that it evaluates in the kernel). -/
def pyLower (s : String) : String :=
  ⟨s.data.map Char.toLower⟩

/-! ## rate_limiter.py -/

/-- `RateLimitInfo` dataclass (src/core/rate_limiter.py).  The
`last_request_time` default is the creation time; the model uses 0. -/
structure RateLimitInfo where
  requests_remaining : Int := 100
  requests_limit : Int := 100
  tokens_remaining : Int := 10000
  tokens_limit : Int := 10000
  reset_time : Option Int := none
  last_request_time : Int := 0
  request_count : Nat := 0
deriving DecidableEq, Repr

/-- `RateLimitInfo.is_rate_limited`: `if self.reset_time and time.time() <
self.reset_time: return True; if self.requests_remaining <= 0: return True;
return False`. -/
def RateLimitInfo.is_rate_limited (info : RateLimitInfo) (now : Int) : Bool :=
  if optTruthy info.reset_time && decide (now < info.reset_time.getD 0) then true
  else if info.requests_remaining ≤ 0 then true
  else false

/-- `RateLimitInfo.time_until_reset`: `if not self.reset_time: return 0;
return max(0, self.reset_time - time.time())`. -/
def RateLimitInfo.time_until_reset (info : RateLimitInfo) (now : Int) : Int :=
  if !optTruthy info.reset_time then 0
  else max 0 (info.reset_time.getD 0 - now)

/-- `RateLimiter.__init__`: `_limits` is a `defaultdict(RateLimitInfo)`,
`_semaphores` maps a provider name to its `asyncio.Semaphore`; the model
stores the semaphore's current counter value. -/
structure RateLimiter where
  limits : List (String × RateLimitInfo) := []
  semaphores : List (String × Nat) := []
deriving DecidableEq, Repr

/-- `RateLimiter._default_max_requests = 10`. -/
def default_max_requests : Nat := 10

/-- `RateLimiter.get_limit_info`: defaultdict read. -/
def RateLimiter.get_limit_info (rl : RateLimiter) (p : String) : RateLimitInfo :=
  (lookupA rl.limits p).getD {}

/-- `RateLimiter.set_rate_limited`: zeroes `requests_remaining`; `if
reset_after:` (truthy, so a zero duration sets no reset time) sets
`reset_time = time.time() + reset_after`. -/
def RateLimiter.set_rate_limited (rl : RateLimiter) (p : String)
    (reset_after : Option Int) (now : Int) : RateLimiter :=
  let info := rl.get_limit_info p
  let info := { info with requests_remaining := 0 }
  let info :=
    if optTruthy reset_after then { info with reset_time := some (now + reset_after.getD 0) }
    else info
  { rl with limits := updateAssoc rl.limits p info }

/-- `RateLimiter.is_rate_limited`. -/
def RateLimiter.is_rate_limited (rl : RateLimiter) (p : String) (now : Int) : Bool :=
  (rl.get_limit_info p).is_rate_limited now

/-- `RateLimiter.time_until_available`. -/
def RateLimiter.time_until_available (rl : RateLimiter) (p : String) (now : Int) : Int :=
  (rl.get_limit_info p).time_until_reset now

/-- Outcome of `RateLimiter.acquire`: either the slot was taken (`ok`), or
the 30-unit `wait_for` on the semaphore elapsed and
`Exception("Could not acquire rate limit slot for ...")` was raised
(`timeout`).  Both carry the limiter state at that point. -/
inductive AcquireResult
  | ok (rl : RateLimiter)
  | timeout (rl : RateLimiter)
deriving DecidableEq, Repr

/-- The limiter state carried by an `AcquireResult`. -/
def AcquireResult.limiter : AcquireResult → RateLimiter
  | AcquireResult.ok rl => rl
  | AcquireResult.timeout rl => rl

/-- `RateLimiter.acquire`.  Faithful rendering of the source with the sleeps
elided: (1) initialize the semaphore to 10 slots if absent; (2) the
`while self.is_rate_limited(...)` loop sleeps in bounded increments while a
future reset time stands, and once the wait time is 0 with the provider
still limited it optimistically restores `requests_remaining` to
`requests_limit`, clears `reset_time` and breaks — so the state at loop
exit has the budgets restored exactly when the provider was limited with
`requests_remaining ≤ 0` (a provider limited only by a pending reset time
leaves the loop, after the reset passes, with its state untouched);
(3) acquire the semaphore: in this single-task model a zero counter can
never be refilled by another task within the 30-unit `asyncio.wait_for`,
so it times out, raising the exception the router later catches.
The minimum-interval sleep after acquisition changes no modelled state.
`initSem` is phase 1: `if provider_name not in self._semaphores:
self._semaphores[provider_name] = asyncio.Semaphore(10)`. -/
def RateLimiter.initSem (rl : RateLimiter) (p : String) : RateLimiter :=
  if (lookupA rl.semaphores p).isSome then rl
  else { rl with semaphores := updateAssoc rl.semaphores p default_max_requests }

/-- Phase 2 of `acquire`: the `while self.is_rate_limited(...)` wait loop.
See the doc comment on `RateLimiter.acquire` for why its exit state is:
budgets optimistically restored (and `reset_time` cleared) exactly when the
provider is limited with `requests_remaining ≤ 0`, untouched otherwise. -/
def RateLimiter.waitLoop (rl : RateLimiter) (p : String) (now : Int) : RateLimiter :=
  if rl.is_rate_limited p now && decide ((rl.get_limit_info p).requests_remaining ≤ 0) then
    let info := rl.get_limit_info p
    let info2 : RateLimitInfo :=
      { info with requests_remaining := info.requests_limit, reset_time := none }
    { rl with limits := updateAssoc rl.limits p info2 }
  else rl

/-- Phase 3 of `acquire`: `asyncio.wait_for(semaphore.acquire(), timeout=30.0)`. -/
def RateLimiter.semAcquire (rl : RateLimiter) (p : String) : AcquireResult :=
  let count := (lookupA rl.semaphores p).getD default_max_requests
  if count = 0 then AcquireResult.timeout rl
  else AcquireResult.ok { rl with semaphores := updateAssoc rl.semaphores p (count - 1) }

def RateLimiter.acquire (rl : RateLimiter) (p : String) (now : Int) : AcquireResult :=
  ((rl.initSem p).waitLoop p now).semAcquire p

/-- `RateLimiter.release`.  `self._semaphores[provider_name].release()` on a
plain `asyncio.Semaphore` increments the counter unconditionally and never
raises `ValueError` (only `BoundedSemaphore` does), so the
`except ValueError: pass` branch in the source is dead code and an
unmatched release pushes the counter above its initial value. -/
def RateLimiter.release (rl : RateLimiter) (p : String) : RateLimiter :=
  match lookupA rl.semaphores p with
  | none => rl
  | some c => { rl with semaphores := updateAssoc rl.semaphores p (c + 1) }

/-- `QuotaManager.__init__`: `_daily_usage` maps a provider name to its
(requests, tokens) counters; `_last_reset` is the creation time (0 in the
model unless stated otherwise). -/
structure QuotaManager where
  daily_usage : List (String × (Nat × Nat)) := []
  last_reset : Int := 0
deriving DecidableEq, Repr

/-- `seconds_in_day = 24 * 60 * 60`. -/
def seconds_in_day : Int := 24 * 60 * 60

/-- `QuotaManager._check_reset`: clears all counters when strictly more than
24 hours have elapsed since the last reset. -/
def QuotaManager.check_reset (qm : QuotaManager) (now : Int) : QuotaManager :=
  if now - qm.last_reset > seconds_in_day then
    { daily_usage := [], last_reset := now }
  else qm

/-- `QuotaManager.record_usage`. -/
def QuotaManager.record_usage (qm : QuotaManager) (p : String) (tokens : Nat)
    (now : Int) : QuotaManager :=
  let qm := qm.check_reset now
  let cur := (lookupA qm.daily_usage p).getD (0, 0)
  { qm with daily_usage := updateAssoc qm.daily_usage p (cur.1 + 1, cur.2 + tokens) }

/-- `QuotaManager.get_usage`: returns the (requests, tokens) snapshot and the
manager state after the rollover check. -/
def QuotaManager.get_usage (qm : QuotaManager) (p : String) (now : Int) :
    (Nat × Nat) × QuotaManager :=
  let qm := qm.check_reset now
  ((lookupA qm.daily_usage p).getD (0, 0), qm)

/-- `QuotaManager.get_all_usage`. -/
def QuotaManager.get_all_usage (qm : QuotaManager) (now : Int) :
    List (String × (Nat × Nat)) × QuotaManager :=
  let qm := qm.check_reset now
  (qm.daily_usage, qm)

/-! ## providers/base.py -/

/-- `ProviderStatus` enum. -/
inductive ProviderStatus
  | available
  | rate_limited
  | error
  | disabled
deriving DecidableEq, Repr

/-- The mutable per-adapter state of `BaseAIProvider`: the configured key
(`config.api_key`), `status`, `last_error` and `rate_limit_reset`. -/
structure BaseProviderState where
  api_key : Option String
  status : ProviderStatus
  last_error : Option String := none
  rate_limit_reset : Option Int := none
deriving DecidableEq, Repr

/-- `BaseAIProvider.is_available`: a side-effecting read — for a
`RATE_LIMITED` status whose recorded reset time is unset (falsy) or passed,
the status auto-transitions back to `AVAILABLE`.  Returns the boolean and
the possibly updated state. -/
def BaseProviderState.is_available (a : BaseProviderState) (now : Int) :
    Bool × BaseProviderState :=
  if !strTruthy a.api_key then (false, a)
  else if a.status = ProviderStatus.disabled then (false, a)
  else if a.status = ProviderStatus.rate_limited then
    if optTruthy a.rate_limit_reset && decide (now < a.rate_limit_reset.getD 0) then
      (false, a)
    else
      let a2 : BaseProviderState := { a with status := ProviderStatus.available }
      (decide (a2.status = ProviderStatus.available), a2)
  else (decide (a.status = ProviderStatus.available), a)

/-- `BaseAIProvider.set_rate_limited`. -/
def BaseProviderState.set_rate_limited (a : BaseProviderState)
    (reset_time : Option Int) : BaseProviderState :=
  { a with status := ProviderStatus.rate_limited, rate_limit_reset := reset_time }

/-- `BaseAIProvider.set_error`. -/
def BaseProviderState.set_error (a : BaseProviderState) (msg : String) : BaseProviderState :=
  { a with status := ProviderStatus.error, last_error := some msg }

/-- `GenerationResult` dataclass. -/
structure GenerationResult where
  success : Bool
  content : String
  provider : String
  model : String
  tokens_used : Option Nat := none
  error_message : Option String := none
deriving DecidableEq, Repr

/-- What one call to an adapter's `generate` does: return a result, or raise
an unexpected exception with the given message. -/
inductive AdapterBehavior
  | ret (r : GenerationResult)
  | raise (msg : String)
deriving DecidableEq, Repr

/-- One configured provider as the router sees it: its mutable base state,
the behaviour of its `generate` call, and the behaviour of its
`generate_stream` call (the chunks it yields, and an exception escaping the
generator after those chunks, if any). -/
structure Provider where
  state : BaseProviderState
  behavior : AdapterBehavior
  stream_chunks : List String := []
  stream_raises : Option String := none
deriving DecidableEq, Repr

/-- `result.error_message or "Unknown error"` (Python `or`: `None` and `""`
are falsy). -/
def orUnknown (o : Option String) : String :=
  match o with
  | none => "Unknown error"
  | some s => if s = "" then "Unknown error" else s

/-! ## providers/groq.py -/

/-- `GroqProvider.generate_stream` (src/providers/groq.py, lines 189-218),
with the upstream HTTP exchange abstracted as: whether the response status
was 429, the list of content deltas decoded from the `data: `-prefixed
lines before the stream ends or faults, and an optional transport fault
raised while streaming (or by `raise_for_status`).  A 429 marks the adapter
rate limited (no reset time) and yields the single chunk
`"[Rate limit exceeded]"`; a fault is caught by the adapter's `except` and
yields one final `"[Error: ...]"` chunk after the deltas already yielded;
malformed JSON lines are skipped (they simply contribute no delta). -/
def GroqProvider.generate_stream (a : BaseProviderState) (status429 : Bool)
    (deltas : List String) (fault : Option String) :
    List String × BaseProviderState :=
  if status429 then (["[Rate limit exceeded]"], a.set_rate_limited none)
  else
    match fault with
    | none => (deltas, a)
    | some e => (deltas ++ ["[Error: " ++ e ++ "]"], a)

/-! ## ai_router.py -/

/-- `RouterResult` dataclass. -/
structure RouterResult where
  success : Bool
  content : String
  provider_used : String
  model_used : String
  tokens_used : Option Nat
  attempts : Nat
  errors : List String
deriving DecidableEq, Repr

/-- The `AIRouter`'s mutable state: the configured providers (a dict, so an
ordered association list with distinct keys), the shared rate limiter and
quota manager, and the configured `settings.provider_priority` list. -/
structure RouterState where
  providers : List (String × Provider)
  rate_limiter : RateLimiter
  quota_manager : QuotaManager
  provider_priority : List String
deriving DecidableEq, Repr

/-- The body of `AIRouter.get_ready_providers`' loop: scans the providers in
dict order, calling the side-effecting `is_available` on each, and collects
the names that are available and not rate limited. -/
def readyScan (rl : RateLimiter) (now : Int) :
    List (String × Provider) → List String × List (String × Provider)
  | [] => ([], [])
  | (name, pr) :: rest =>
    let pa := pr.state.is_available now
    let r := readyScan rl now rest
    let pr2 : Provider := { pr with state := pa.2 }
    (if pa.1 && !(rl.is_rate_limited name now) then name :: r.1 else r.1,
     (name, pr2) :: r.2)

/-- `AIRouter.get_ready_providers`. -/
def RouterState.get_ready_providers (st : RouterState) (now : Int) :
    List String × RouterState :=
  let r := readyScan st.rate_limiter now st.providers
  (r.1, { st with providers := r.2 })

/-- `AIRouter._get_provider_priority`: the ready providers, sorted by the
configured priority list, followed by any remaining ready providers not
already listed. -/
def RouterState.get_provider_priority (st : RouterState) (now : Int) :
    List String × RouterState :=
  let r := st.get_ready_providers now
  let ready := r.1
  let st := r.2
  let priority := st.provider_priority.filter (fun p => decide (p ∈ ready))
  let priority := ready.foldl (fun acc p => if p ∈ acc then acc else acc ++ [p]) priority
  (priority, st)

/-- The provider-order determination at the top of `AIRouter.generate`
(src/core/ai_router.py lines 103-114): a truthy preferred provider that is
configured and `is_available()` goes first, followed by the priority list
with the preferred name filtered out; otherwise the plain priority list. -/
def AIRouter.determine_order (st : RouterState) (now : Int)
    (preferred : Option String) : List String × RouterState :=
  match preferred with
  | some pp =>
    if pp = "" then st.get_provider_priority now
    else
      match lookupA st.providers pp with
      | none => st.get_provider_priority now
      | some pr =>
        let pa := pr.state.is_available now
        let pr2 : Provider := { pr with state := pa.2 }
        let st : RouterState :=
          { st with providers := updateAssoc st.providers pp pr2 }
        if pa.1 then
          let prio := st.get_provider_priority now
          (pp :: prio.1.filter (fun p => decide (p ≠ pp)), prio.2)
        else st.get_provider_priority now
  | none => st.get_provider_priority now

/-- The loop-carried state of `AIRouter.generate`: the shared router state,
the `attempts` counter and `errors` list, plus a ghost trace `tried` of
the providers whose `generate` was actually invoked, in order. -/
structure LoopState where
  st : RouterState
  attempts : Nat
  errors : List String
  tried : List String
deriving DecidableEq, Repr

/-- The diagnostic recorded for a rate-limited candidate.  The source
formats the wait with `:.0f` (whole seconds); integer time renders the
same value directly. -/
def rateLimitedDiag (name : String) (wait : Int) : String :=
  name ++ ": Rate limited, wait " ++ toString wait ++ "s"

/-- One iteration body of `AIRouter.generate`'s provider loop, from the
`try: await self.rate_limiter.acquire(...)` onwards (lines 143-187):
acquire a slot (a timeout raises, is caught by the outer `except`, recorded
and the adapter marked errored); on success increment `attempts`, invoke
the adapter, and release the slot in the inner `finally` on every path.
Returns `some result` when the router returns, else `none` to continue. -/
def AIRouter.tryProvider (now : Int) (name : String) (pr : Provider)
    (ls : LoopState) : Option RouterResult × LoopState :=
  match ls.st.rate_limiter.acquire name now with
  | AcquireResult.timeout rl =>
    let emsg := "Could not acquire rate limit slot for " ++ name
    let pr2 : Provider := { pr with state := pr.state.set_error emsg }
    let st : RouterState :=
      { ls.st with rate_limiter := rl,
                   providers := updateAssoc ls.st.providers name pr2 }
    (none, { ls with st := st, errors := ls.errors ++ [name ++ ": " ++ emsg] })
  | AcquireResult.ok rl =>
    let st : RouterState := { ls.st with rate_limiter := rl }
    let attempts := ls.attempts + 1
    let tried := ls.tried ++ [name]
    match pr.behavior with
    | AdapterBehavior.raise msg =>
      let pr2 : Provider := { pr with state := pr.state.set_error msg }
      let st : RouterState :=
        { st with rate_limiter := st.rate_limiter.release name,
                  providers := updateAssoc st.providers name pr2 }
      (none, { st := st, attempts := attempts,
               errors := ls.errors ++ [name ++ ": " ++ msg], tried := tried })
    | AdapterBehavior.ret result =>
      if result.success then
        let st : RouterState :=
          { st with quota_manager :=
              st.quota_manager.record_usage name (result.tokens_used.getD 0) now }
        let st : RouterState := { st with rate_limiter := st.rate_limiter.release name }
        (some { success := true, content := result.content, provider_used := name,
                model_used := result.model, tokens_used := result.tokens_used,
                attempts := attempts, errors := ls.errors },
         { st := st, attempts := attempts, errors := ls.errors, tried := tried })
      else
        let emsg := orUnknown result.error_message
        let errs := ls.errors ++ [name ++ ": " ++ emsg]
        let pr2 : Provider := { pr with state := pr.state.set_rate_limited none }
        let st : RouterState :=
          if containsSubstring (pyLower emsg) "rate limit" then
            { st with providers := updateAssoc st.providers name pr2,
                      rate_limiter := st.rate_limiter.set_rate_limited name none now }
          else st
        let st : RouterState := { st with rate_limiter := st.rate_limiter.release name }
        (none, { st := st, attempts := attempts, errors := errs, tried := tried })

/-- The failure `RouterResult` built when the loop ends (lines 189-198). -/
def failureResult (ls : LoopState) : RouterResult :=
  { success := false, content := "", provider_used := "", model_used := "",
    tokens_used := none, attempts := ls.attempts, errors := ls.errors }

/-- The `for provider_name in provider_order:` loop of `AIRouter.generate`
(lines 127-187): stop at the retry ceiling, skip unknown names, skip (with
a diagnostic) a candidate that is rate limited with a positive wait — a
rate-limited candidate with zero wait falls through to the attempt — and
otherwise run one attempt. -/
def AIRouter.generateLoop (now : Int) (max_retries : Nat) :
    List String → LoopState → RouterResult × LoopState
  | [], ls => (failureResult ls, ls)
  | name :: rest, ls =>
    if ls.attempts ≥ max_retries then (failureResult ls, ls)
    else
      match lookupA ls.st.providers name with
      | none => AIRouter.generateLoop now max_retries rest ls
      | some pr =>
        if ls.st.rate_limiter.is_rate_limited name now &&
           decide (ls.st.rate_limiter.time_until_available name now > 0) then
          AIRouter.generateLoop now max_retries rest
            { ls with errors := ls.errors ++
                [rateLimitedDiag name (ls.st.rate_limiter.time_until_available name now)] }
        else
          match AIRouter.tryProvider now name pr ls with
          | (some r, ls2) => (r, ls2)
          | (none, ls2) => AIRouter.generateLoop now max_retries rest ls2

/-- `AIRouter.generate` (src/core/ai_router.py lines 89-198).  The payload
arguments (prompt, system prompt, model, temperature, max tokens) only flow
into the adapter call, whose reaction is abstracted by each provider's
`AdapterBehavior`, so they are omitted.  Returns the `RouterResult` and the
final loop state (router state, attempt count, diagnostics, ghost trace). -/
def AIRouter.generate (st : RouterState) (now : Int) (preferred : Option String)
    (max_retries : Nat) : RouterResult × LoopState :=
  let od := AIRouter.determine_order st now preferred
  if od.1 = [] then
    ({ success := false, content := "", provider_used := "", model_used := "",
       tokens_used := none, attempts := 0,
       errors := ["No providers available. Please configure at least one API key."] },
     { st := od.2, attempts := 0, errors := [], tried := [] })
  else
    AIRouter.generateLoop now max_retries od.1 { st := od.2, attempts := 0, errors := [], tried := [] }

/-- The single-provider choice at the top of `AIRouter.generate_with_stream`
(lines 210-225): the truthy, configured, `is_available()` preferred
provider, else the first ready provider; `none` when no candidate exists
(the caller then receives the single `"[Error: No providers available]"`
chunk). -/
def AIRouter.streamChoose (st : RouterState) (now : Int) (preferred : Option String) :
    Option String × RouterState :=
  let fallback := fun (st : RouterState) =>
    let r := st.get_ready_providers now
    (match r.1 with
     | [] => (none : Option String)
     | p :: _ => some p, r.2)
  match preferred with
  | some pp =>
    if pp = "" then fallback st
    else
      match lookupA st.providers pp with
      | none => fallback st
      | some pr =>
        let pa := pr.state.is_available now
        let pr2 : Provider := { pr with state := pa.2 }
        let st : RouterState :=
          { st with providers := updateAssoc st.providers pp pr2 }
        if pa.1 then (some pp, st) else fallback st
  | none => fallback st

/-- `AIRouter.generate_with_stream` (lines 200-246): choose one provider,
acquire its slot (a timeout exception surfaces as one `"[Error: ...]"`
chunk), forward the adapter's stream verbatim, release the slot in the
`finally` whether the stream ends or faults, and turn an exception escaping
the stream into one final `"[Error: ...]"` chunk.  Returns the chunk
sequence the caller sees and the final router state. -/
def AIRouter.generate_with_stream (st : RouterState) (now : Int)
    (preferred : Option String) : List String × RouterState :=
  match AIRouter.streamChoose st now preferred with
  | (none, st) => (["[Error: No providers available]"], st)
  | (some name, st) =>
    match lookupA st.providers name with
    | none => (["[Error: No providers available]"], st)
    | some pr =>
      match st.rate_limiter.acquire name now with
      | AcquireResult.timeout rl =>
        (["[Error: Could not acquire rate limit slot for " ++ name ++ "]"],
         { st with rate_limiter := rl })
      | AcquireResult.ok rl =>
        let st : RouterState := { st with rate_limiter := rl }
        let out := pr.stream_chunks ++
          (match pr.stream_raises with
           | none => []
           | some m => ["[Error: " ++ m ++ "]"])
        (out, { st with rate_limiter := st.rate_limiter.release name })

/-- A chunk that is an error marker in the sense of the streaming contract:
it starts with `"[Error:"`. -/
def isErrorMarker (s : String) : Bool :=
  "[Error:".data.isPrefixOf s.data

/-! ## Concrete scenario states used by the testable properties -/

/-- A configured, available adapter state. -/
def readyState : BaseProviderState :=
  { api_key := some "k", status := ProviderStatus.available }

/-- A successful generation result from the named provider. -/
def okGen (name : String) : GenerationResult :=
  { success := true, content := "out", provider := name, model := "m", tokens_used := some 5 }

/-- A reported failure whose message does not mention a rate limit. -/
def failGen : GenerationResult :=
  { success := false, content := "", provider := "", model := "m", error_message := some "boom" }

/-- Scenario {A: rate-limited (reset at 130), B: ready, C: ready}, B succeeds;
evaluated at time 100, so A's wait is 30. -/
def stC1 : RouterState :=
  { providers := [("A", { state := readyState, behavior := AdapterBehavior.ret failGen }),
                  ("B", { state := readyState, behavior := AdapterBehavior.ret (okGen "B") }),
                  ("C", { state := readyState, behavior := AdapterBehavior.ret (okGen "C") })],
    rate_limiter := { limits := [("A", { requests_remaining := 0, reset_time := some 130 })] },
    quota_manager := {},
    provider_priority := ["A", "B", "C"] }

/-- Same as `stC1` but every provider's generate reports a failure. -/
def stC1f : RouterState :=
  { providers := [("A", { state := readyState, behavior := AdapterBehavior.ret failGen }),
                  ("B", { state := readyState, behavior := AdapterBehavior.ret failGen }),
                  ("C", { state := readyState, behavior := AdapterBehavior.ret failGen })],
    rate_limiter := { limits := [("A", { requests_remaining := 0, reset_time := some 130 })] },
    quota_manager := {},
    provider_priority := ["A", "B", "C"] }

/-- Three ready providers whose generate calls all fail. -/
def stC2 : RouterState :=
  { providers := [("A", { state := readyState, behavior := AdapterBehavior.ret failGen }),
                  ("B", { state := readyState, behavior := AdapterBehavior.ret failGen }),
                  ("C", { state := readyState, behavior := AdapterBehavior.ret failGen })],
    rate_limiter := {},
    quota_manager := {},
    provider_priority := ["A", "B", "C"] }

/-- A single provider that is rate-limited at the limiter with an exhausted
budget but no reset time (so its wait time is 0), adapter-side available:
the loop's skip guard (`wait_time > 0`) does not fire for it. -/
def stC1x : RouterState :=
  { providers := [("P", { state := readyState, behavior := AdapterBehavior.ret failGen })],
    rate_limiter := { limits := [("P", { requests_remaining := 0 })] },
    quota_manager := {},
    provider_priority := ["P"] }

/-- No provider configured at all. -/
def stC3 : RouterState :=
  { providers := [], rate_limiter := {}, quota_manager := {},
    provider_priority := ["groq", "deepseek", "openrouter"] }

/-- One ready provider whose generate raises an unexpected exception. -/
def stC6 : RouterState :=
  { providers := [("A", { state := readyState, behavior := AdapterBehavior.raise "kaput" })],
    rate_limiter := {}, quota_manager := {}, provider_priority := ["A"] }

/-- Streaming scenario: provider G's stream yields two chunks and then hits a
mid-stream transport fault (as rendered by `GroqProvider.generate_stream`);
a second ready provider H exists but must not be contacted. -/
def stC7 : RouterState :=
  { providers := [("G", { state := readyState, behavior := AdapterBehavior.ret failGen,
                          stream_chunks :=
                            (GroqProvider.generate_stream readyState false
                              ["hel", "lo"] (some "net down")).1,
                          stream_raises := none }),
                  ("H", { state := readyState, behavior := AdapterBehavior.ret (okGen "H") })],
    rate_limiter := {},
    quota_manager := {},
    provider_priority := ["G", "H"] }

/-! ## Helper lemmas -/

theorem lookupA_updateAssoc {β : Type} (l : List (String × β)) (k q : String) (v : β) :
    lookupA (updateAssoc l k v) q = if k = q then some v else lookupA l q := by
  induction l with
  | nil => simp [updateAssoc, lookupA]
  | cons hd t ih =>
    obtain ⟨k0, v0⟩ := hd
    by_cases hk : k0 = k
    · subst hk
      simp only [updateAssoc, if_pos rfl, lookupA]
      by_cases hq : k0 = q
      · simp [hq]
      · simp [hq]
    · simp only [updateAssoc, if_neg hk, lookupA]
      by_cases hq : k0 = q
      · have hkq : ¬ k = q := fun h => hk (h ▸ hq)
        simp [hq, hkq]
      · simp [hq, ih]

theorem initSem_limits (rl : RateLimiter) (p : String) :
    (rl.initSem p).limits = rl.limits := by
  unfold RateLimiter.initSem
  split <;> rfl

theorem initSem_of_some (rl : RateLimiter) (p : String) (c : Nat)
    (h : lookupA rl.semaphores p = some c) : rl.initSem p = rl := by
  unfold RateLimiter.initSem
  simp [h]

theorem initSem_lookup_self (rl : RateLimiter) (p : String) :
    lookupA (rl.initSem p).semaphores p =
      some ((lookupA rl.semaphores p).getD default_max_requests) := by
  unfold RateLimiter.initSem
  cases h : lookupA rl.semaphores p with
  | some c => simp [h]
  | none => simp [h, lookupA_updateAssoc]

theorem initSem_lookup_ne (rl : RateLimiter) (p q : String) (h : ¬ p = q) :
    lookupA (rl.initSem p).semaphores q = lookupA rl.semaphores q := by
  unfold RateLimiter.initSem
  split
  · rfl
  · simp [lookupA_updateAssoc, h]

theorem waitLoop_sem (rl : RateLimiter) (p : String) (now : Int) :
    (rl.waitLoop p now).semaphores = rl.semaphores := by
  unfold RateLimiter.waitLoop
  split <;> rfl

theorem set_rate_limited_sem (rl : RateLimiter) (p : String) (ra : Option Int) (now : Int) :
    (rl.set_rate_limited p ra now).semaphores = rl.semaphores := rfl

theorem semAcquire_ok (rl : RateLimiter) (p : String) (rl2 : RateLimiter)
    (h : rl.semAcquire p = AcquireResult.ok rl2) :
    (lookupA rl.semaphores p).getD default_max_requests ≠ 0 ∧
    rl2.semaphores =
      updateAssoc rl.semaphores p ((lookupA rl.semaphores p).getD default_max_requests - 1) ∧
    rl2.limits = rl.limits := by
  unfold RateLimiter.semAcquire at h
  by_cases hc : (lookupA rl.semaphores p).getD default_max_requests = 0
  · simp [hc] at h
  · simp only [hc, if_neg, if_false] at h
    injection h with h2
    subst h2
    exact ⟨hc, rfl, rfl⟩

theorem semAcquire_timeout (rl : RateLimiter) (p : String) (rl2 : RateLimiter)
    (h : rl.semAcquire p = AcquireResult.timeout rl2) :
    (lookupA rl.semaphores p).getD default_max_requests = 0 ∧ rl2 = rl := by
  unfold RateLimiter.semAcquire at h
  by_cases hc : (lookupA rl.semaphores p).getD default_max_requests = 0
  · simp only [hc, if_pos, if_true] at h
    injection h with h2
    subst h2
    exact ⟨hc, rfl⟩
  · simp [hc] at h

theorem acquire_ok (rl : RateLimiter) (p : String) (now : Int) (rl2 : RateLimiter)
    (h : rl.acquire p now = AcquireResult.ok rl2) :
    (lookupA rl.semaphores p).getD default_max_requests ≠ 0 ∧
    (∀ q, lookupA rl2.semaphores q =
      if p = q then some ((lookupA rl.semaphores p).getD default_max_requests - 1)
      else lookupA rl.semaphores q) := by
  unfold RateLimiter.acquire at h
  obtain ⟨hc, hsem, _⟩ := semAcquire_ok _ _ _ h
  rw [waitLoop_sem, initSem_lookup_self] at hc hsem
  simp only [Option.getD_some] at hc hsem
  refine ⟨hc, fun q => ?_⟩
  rw [hsem, lookupA_updateAssoc]
  by_cases hq : p = q
  · simp [hq]
  · rw [if_neg hq, if_neg hq, initSem_lookup_ne _ _ _ hq]

theorem acquire_timeout (rl : RateLimiter) (p : String) (now : Int) (rl2 : RateLimiter)
    (h : rl.acquire p now = AcquireResult.timeout rl2) :
    lookupA rl.semaphores p = some 0 ∧ rl2.semaphores = rl.semaphores := by
  unfold RateLimiter.acquire at h
  obtain ⟨hc, hrl⟩ := semAcquire_timeout _ _ _ h
  rw [waitLoop_sem, initSem_lookup_self] at hc
  simp only [Option.getD_some] at hc
  cases horig : lookupA rl.semaphores p with
  | none =>
    rw [horig] at hc
    simp [default_max_requests] at hc
  | some c =>
    rw [horig] at hc
    simp only [Option.getD_some] at hc
    subst hc
    subst hrl
    rw [waitLoop_sem, initSem_of_some _ _ _ horig]
    exact ⟨by simp [horig], rfl⟩


theorem release_lookup_some (rl : RateLimiter) (p : String) (c : Nat)
    (h : lookupA rl.semaphores p = some c) (q : String) :
    lookupA (rl.release p).semaphores q =
      if p = q then some (c + 1) else lookupA rl.semaphores q := by
  unfold RateLimiter.release
  rw [h]
  simp [lookupA_updateAssoc]

theorem release_lookup_none (rl : RateLimiter) (p : String)
    (h : lookupA rl.semaphores p = none) : rl.release p = rl := by
  unfold RateLimiter.release
  rw [h]

/-! ## C9: unmatched release -/

/-- C9 (code behaviour at the claim's failing input): an unmatched
`release("groq")` on a rate limiter whose "groq" semaphore sits at its full
initial value 10 *increments* the counter to 11 — `asyncio.Semaphore.release`
never raises the `ValueError` the source's dead `except` branch (and its
comment "Semaphore was already at max value") expects — while a release for
a provider with no semaphore at all is indeed a no-op. -/
theorem c9_release_unmatched_increments :
    (RateLimiter.release { semaphores := [("groq", 10)] } "groq").semaphores
        = [("groq", 11)] ∧
    (RateLimiter.release { semaphores := [("groq", 10)] } "groq").semaphores
        ≠ [("groq", 10)] ∧
    RateLimiter.release {} "groq" = ({} : RateLimiter) := by
  refine ⟨by decide, by decide, by decide⟩

/-! ## C10: adapter-level rate-limit mark without a reset time is ephemeral -/

/-- C10: after `set_rate_limited(reset_time=None)` — what the router does on
detecting a rate limit in an error message — the very next `is_available()`
flips the status back to `Available` and returns true, given a configured
(truthy) credential; only the limiter-side zeroed budget persists. -/
theorem c10_ephemeral_adapter_mark (a : BaseProviderState) (now : Int)
    (hkey : strTruthy a.api_key = true) :
    ((a.set_rate_limited none).is_available now).1 = true ∧
    ((a.set_rate_limited none).is_available now).2.status = ProviderStatus.available ∧
    ((a.set_rate_limited none).is_available now).2.api_key = a.api_key := by
  unfold BaseProviderState.set_rate_limited BaseProviderState.is_available
  simp [hkey, optTruthy]

/-- C10 witness: a concrete configured adapter. -/
theorem c10_ephemeral_adapter_mark_witness :
    ((readyState.set_rate_limited none).is_available 100).1 = true ∧
    ((readyState.set_rate_limited none).is_available 100).2.status = ProviderStatus.available ∧
    ((readyState.set_rate_limited none).is_available 100).2.api_key = readyState.api_key :=
  c10_ephemeral_adapter_mark readyState 100 (by decide)

theorem get_limit_info_eq_of_limits (rl1 rl2 : RateLimiter) (p : String)
    (h : rl1.limits = rl2.limits) : rl1.get_limit_info p = rl2.get_limit_info p := by
  unfold RateLimiter.get_limit_info
  rw [h]

theorem initSem_get_limit_info (rl : RateLimiter) (p q : String) :
    (rl.initSem p).get_limit_info q = rl.get_limit_info q :=
  get_limit_info_eq_of_limits _ _ _ (initSem_limits rl p)

theorem initSem_is_rate_limited (rl : RateLimiter) (p q : String) (now : Int) :
    (rl.initSem p).is_rate_limited q now = rl.is_rate_limited q now := by
  unfold RateLimiter.is_rate_limited
  rw [initSem_get_limit_info]

theorem semAcquire_limiter_limits (rl : RateLimiter) (p : String) :
    ((rl.semAcquire p).limiter).limits = rl.limits := by
  unfold RateLimiter.semAcquire AcquireResult.limiter
  by_cases hc : (lookupA rl.semaphores p).getD default_max_requests = 0 <;> simp [hc]

/-- A zero or negative request budget alone keeps `is_rate_limited` true,
whatever the clock says. -/
theorem is_rate_limited_of_nonpos (info : RateLimitInfo) (t : Int)
    (h : info.requests_remaining ≤ 0) : info.is_rate_limited t = true := by
  unfold RateLimitInfo.is_rate_limited
  by_cases h1 : (optTruthy info.reset_time && decide (t < info.reset_time.getD 0)) = true
  · rw [if_pos h1]
  · rw [if_neg h1, if_pos h]

/-- With no reset time set, being rate limited forces a non-positive budget. -/
theorem nonpos_of_rate_limited_no_reset (info : RateLimitInfo) (t : Int)
    (hr : info.reset_time = none) (h : info.is_rate_limited t = true) :
    info.requests_remaining ≤ 0 := by
  unfold RateLimitInfo.is_rate_limited at h
  rw [hr] at h
  simp only [optTruthy, Bool.false_and, if_false] at h
  by_cases h2 : info.requests_remaining ≤ 0
  · exact h2
  · simp [h2] at h

theorem waitLoop_hit (rl : RateLimiter) (p : String) (now : Int)
    (h1 : rl.is_rate_limited p now = true)
    (h2 : (rl.get_limit_info p).requests_remaining ≤ 0) :
    (rl.waitLoop p now).get_limit_info p =
      { rl.get_limit_info p with
          requests_remaining := (rl.get_limit_info p).requests_limit,
          reset_time := none } := by
  unfold RateLimiter.waitLoop
  simp only [h1, h2, decide_True, Bool.and_self, if_true, decide_eq_true_eq]
  unfold RateLimiter.get_limit_info
  simp [lookupA_updateAssoc]

/-! ## C4: rate-limit state semantics -/

/-- C4 counterexample to the claim as stated: with `reset_after = 0` — a
given duration — `set_rate_limited` leaves the reset time unset (Python's
`if reset_after:` is false at `0`), so the reset time does not equal
`now + 0`. -/
theorem c4_reset_after_zero_cex :
    ¬ (((RateLimiter.set_rate_limited {} "P" (some 0) 100).get_limit_info "P").reset_time
        = some (100 + 0)) := by
  decide

/-- C4 (amended: `reset_after = N` with N nonzero, i.e. truthy): the
`is_rate_limited` invariant — true iff the reset time is set (truthy) and
now is before it, or the request budget is ≤ 0; after
`set_rate_limited(P, N)` the budget is 0 and the reset time is `now + N`,
so the provider is limited immediately and `is_rate_limited` never turns
false by mere passage of time (the budget stays ≤ 0); only `acquire`'s
optimistic reset path — taken when no reset time is set — restores the
budget to the limit and clears the reset time. -/
theorem c4_rate_limit_state :
    (∀ (info : RateLimitInfo) (now : Int),
        info.is_rate_limited now = true ↔
          ((∃ r, info.reset_time = some r ∧ r ≠ 0 ∧ now < r) ∨
           info.requests_remaining ≤ 0)) ∧
    (∀ (rl : RateLimiter) (p : String) (now N : Int), N ≠ 0 →
        ((rl.set_rate_limited p (some N) now).get_limit_info p).requests_remaining = 0 ∧
        ((rl.set_rate_limited p (some N) now).get_limit_info p).reset_time = some (now + N) ∧
        (rl.set_rate_limited p (some N) now).is_rate_limited p now = true ∧
        (∀ t, (rl.set_rate_limited p (some N) now).is_rate_limited p t = false →
            now + N < t)) ∧
    (∀ (rl : RateLimiter) (p : String) (now : Int),
        (rl.get_limit_info p).reset_time = none →
        rl.is_rate_limited p now = true →
        (((rl.acquire p now).limiter.get_limit_info p).requests_remaining =
            (rl.get_limit_info p).requests_limit ∧
         ((rl.acquire p now).limiter.get_limit_info p).reset_time = none)) := by
  refine ⟨?_, ?_, ?_⟩
  · intro info now
    unfold RateLimitInfo.is_rate_limited optTruthy
    cases hr : info.reset_time with
    | none =>
      by_cases h2 : info.requests_remaining ≤ 0 <;> simp [h2]
    | some r =>
      by_cases h0 : r = 0
      · subst h0
        by_cases h2 : info.requests_remaining ≤ 0 <;> simp [h2]
      · by_cases hlt : now < r
        · simp [h0, hlt]
        · by_cases h2 : info.requests_remaining ≤ 0 <;> simp [h0, hlt, h2]
  · intro rl p now N hN
    have hinfo : (rl.set_rate_limited p (some N) now).get_limit_info p =
        { rl.get_limit_info p with requests_remaining := 0,
                                   reset_time := some (now + N) } := by
      unfold RateLimiter.set_rate_limited RateLimiter.get_limit_info
      simp [optTruthy, hN, lookupA_updateAssoc]
    refine ⟨by rw [hinfo], by rw [hinfo], ?_, ?_⟩
    · unfold RateLimiter.is_rate_limited
      exact is_rate_limited_of_nonpos _ _ (by rw [hinfo])
    · intro t ht
      unfold RateLimiter.is_rate_limited at ht
      rw [is_rate_limited_of_nonpos _ _ (by rw [hinfo])] at ht
      cases ht
  · intro rl p now hr hlim
    have h2 : (rl.get_limit_info p).requests_remaining ≤ 0 :=
      nonpos_of_rate_limited_no_reset _ _ hr hlim
    have hmid : ((rl.initSem p).waitLoop p now).get_limit_info p =
        { rl.get_limit_info p with
            requests_remaining := (rl.get_limit_info p).requests_limit,
            reset_time := none } := by
      rw [waitLoop_hit _ _ _ (by rw [initSem_is_rate_limited]; exact hlim)
            (by rw [initSem_get_limit_info]; exact h2),
          initSem_get_limit_info]
    have hfin : (rl.acquire p now).limiter.get_limit_info p =
        ((rl.initSem p).waitLoop p now).get_limit_info p := by
      unfold RateLimiter.acquire
      exact get_limit_info_eq_of_limits _ _ _ (semAcquire_limiter_limits _ _)
    rw [hfin, hmid]
    exact ⟨rfl, rfl⟩

/-- C4 witness: a concrete provider marked limited for 30 units at time 100,
plus the optimistic-reset clause at a concrete budget-exhausted state. -/
theorem c4_rate_limit_state_witness :
    ((RateLimiter.set_rate_limited {} "P" (some 30) 100).get_limit_info "P").requests_remaining
        = 0 ∧
    ((RateLimiter.set_rate_limited {} "P" (some 30) 100).get_limit_info "P").reset_time
        = some (100 + 30) ∧
    (RateLimiter.set_rate_limited {} "P" (some 30) 100).is_rate_limited "P" 100 = true := by
  have h := c4_rate_limit_state.2.1 {} "P" 100 30 (by decide)
  exact ⟨h.1, h.2.1, h.2.2.1⟩

/-- A `record_usage` call that triggers the rollover leaves exactly the one
fresh record. -/
theorem record_rollover (qm : QuotaManager) (p : String) (tok : Nat) (now : Int)
    (h : now - qm.last_reset > seconds_in_day) :
    qm.record_usage p tok now = { daily_usage := [(p, (1, tok))], last_reset := now } := by
  unfold QuotaManager.record_usage QuotaManager.check_reset
  simp [h, lookupA, updateAssoc]

/-- A `get_usage` call that does not trigger the rollover reads the counters
as stored. -/
theorem get_usage_no_rollover (qm : QuotaManager) (p : String) (now : Int)
    (h : ¬ now - qm.last_reset > seconds_in_day) :
    (qm.get_usage p now).1 = (lookupA qm.daily_usage p).getD (0, 0) := by
  unfold QuotaManager.get_usage QuotaManager.check_reset
  simp [h]

/-! ## C8: daily usage rollover -/

/-- C8: every `QuotaManager` operation first clears all counters when more
than 24 hours have elapsed since the last reset; in particular recording
for X, advancing past 24 hours, and recording again leaves only the
post-rollover record visible. -/
theorem c8_daily_rollover :
    (∀ (qm : QuotaManager) (p : String) (now : Int),
        now - qm.last_reset > seconds_in_day →
        ((qm.get_usage p now).1 = (0, 0) ∧
         (qm.get_all_usage now).1 = [] ∧
         ∀ tok, (qm.record_usage p tok now).daily_usage = [(p, (1, tok))])) ∧
    (∀ (qm : QuotaManager) (p : String) (t0 t1 : Int) (tok1 tok2 : Nat),
        qm.last_reset ≤ t0 → t1 - t0 > seconds_in_day →
        (((qm.record_usage p tok1 t0).record_usage p tok2 t1).get_usage p t1).1
          = (1, tok2)) := by
  constructor
  · intro qm p now h
    refine ⟨?_, ?_, ?_⟩
    · unfold QuotaManager.get_usage QuotaManager.check_reset
      simp [h, lookupA]
    · unfold QuotaManager.get_all_usage QuotaManager.check_reset
      simp [h]
    · intro tok
      unfold QuotaManager.record_usage QuotaManager.check_reset
      simp [h, lookupA, updateAssoc]
  · intro qm p t0 t1 tok1 tok2 h0 h1
    have hle : (qm.record_usage p tok1 t0).last_reset ≤ t0 := by
      unfold QuotaManager.record_usage QuotaManager.check_reset
      split
      · exact le_refl _
      · exact h0
    have hgt : t1 - (qm.record_usage p tok1 t0).last_reset > seconds_in_day := by
      omega
    rw [record_rollover _ _ _ _ hgt]
    rw [get_usage_no_rollover _ _ _ (by norm_num [seconds_in_day])]
    simp [lookupA]

/-- C8 witness: concrete times 10 and 86420 (a bit more than a day apart). -/
theorem c8_daily_rollover_witness :
    (((QuotaManager.record_usage {} "X" 7 10).record_usage "X" 9 86420).get_usage
        "X" 86420).1 = (1, 9) :=
  c8_daily_rollover.2 {} "X" 10 86420 7 9 (by decide) (by decide)

theorem release_after_ok (rl0 : RateLimiter) (now : Int) (rl rlX : RateLimiter)
    (name : String) (hacq : rl0.acquire name now = AcquireResult.ok rl)
    (hsem : rlX.semaphores = rl.semaphores) (q : String) :
    lookupA (rlX.release name).semaphores q =
      if name = q then some ((lookupA rl0.semaphores name).getD default_max_requests)
      else lookupA rl0.semaphores q := by
  obtain ⟨hc, hl⟩ := acquire_ok _ _ _ _ hacq
  have hname : lookupA rlX.semaphores name =
      some ((lookupA rl0.semaphores name).getD default_max_requests - 1) := by
    rw [hsem, hl name, if_pos rfl]
  rw [release_lookup_some _ _ _ hname q]
  by_cases hq : name = q
  · rw [if_pos hq, if_pos hq]
    congr 1
    omega
  · rw [if_neg hq, if_neg hq, hsem, hl q, if_neg hq]

/-- Slot balance of one attempt: whatever path `tryProvider` takes (success,
reported failure, adapter exception, or acquire timeout), the provider's
semaphore ends at the value it had before the acquire (its initial value 10
if the semaphore was first created by this attempt), and no other
provider's semaphore changes. -/
theorem tryProvider_sem (now : Int) (name : String) (pr : Provider) (ls : LoopState)
    (q : String) :
    lookupA (AIRouter.tryProvider now name pr ls).2.st.rate_limiter.semaphores q =
      if name = q
      then some ((lookupA ls.st.rate_limiter.semaphores name).getD default_max_requests)
      else lookupA ls.st.rate_limiter.semaphores q := by
  unfold AIRouter.tryProvider
  cases hacq : ls.st.rate_limiter.acquire name now with
  | timeout rl =>
    obtain ⟨h0, hsem⟩ := acquire_timeout _ _ _ _ hacq
    simp only [hacq]
    by_cases hq : name = q
    · subst hq
      simp [hsem, h0]
    · simp [hsem, hq]
  | ok rl =>
    simp only [hacq]
    cases hb : pr.behavior with
    | raise msg =>
      simp only []
      exact release_after_ok _ _ _ _ _ hacq rfl q
    | ret res =>
      by_cases hs : res.success = true
      · simp only [hs, if_true]
        exact release_after_ok _ _ _ _ _ hacq rfl q
      · simp only [hs, if_false, Bool.false_eq_true]
        by_cases hrl : containsSubstring (pyLower (orUnknown res.error_message)) "rate limit" = true
        · simp only [hrl, if_true]
          exact release_after_ok _ _ _ _ _ hacq (set_rate_limited_sem _ _ _ _) q
        · simp only [hrl, if_false]
          exact release_after_ok _ _ _ _ _ hacq rfl q

theorem tryProvider_attempts (now : Int) (name : String) (pr : Provider) (ls : LoopState) :
    (AIRouter.tryProvider now name pr ls).2.attempts = ls.attempts ∨
    (AIRouter.tryProvider now name pr ls).2.attempts = ls.attempts + 1 := by
  unfold AIRouter.tryProvider
  cases hacq : ls.st.rate_limiter.acquire name now with
  | timeout rl => simp [hacq]
  | ok rl =>
    cases hb : pr.behavior with
    | raise msg => simp [hacq, hb]
    | ret res =>
      by_cases hs : res.success = true
      · simp [hacq, hb, hs]
      · simp [hacq, hb, hs]

theorem tryProvider_some (now : Int) (name : String) (pr : Provider) (ls : LoopState)
    (r : RouterResult) (ls2 : LoopState)
    (h : AIRouter.tryProvider now name pr ls = (some r, ls2)) :
    r.success = true ∧ r.attempts = ls2.attempts ∧ r.errors = ls2.errors ∧
    ls2.attempts = ls.attempts + 1 ∧ r.provider_used = name := by
  unfold AIRouter.tryProvider at h
  cases hacq : ls.st.rate_limiter.acquire name now with
  | timeout rl =>
    rw [hacq] at h
    simp at h
  | ok rl =>
    rw [hacq] at h
    cases hb : pr.behavior with
    | raise msg =>
      rw [hb] at h
      simp at h
    | ret res =>
      rw [hb] at h
      by_cases hs : res.success = true
      · simp only [hs, if_true, Prod.mk.injEq, Option.some.injEq] at h
        obtain ⟨h1, h2⟩ := h
        subst h1
        subst h2
        exact ⟨rfl, rfl, rfl, rfl, rfl⟩
      · simp [hs] at h

theorem generateLoop_attempts (now : Int) (mr : Nat) (cands : List String) (ls : LoopState)
    (h : ls.attempts ≤ mr) :
    (AIRouter.generateLoop now mr cands ls).1.attempts ≤ mr := by
  induction cands generalizing ls with
  | nil => simpa [AIRouter.generateLoop, failureResult] using h
  | cons name rest ih =>
    unfold AIRouter.generateLoop
    by_cases hge : ls.attempts ≥ mr
    · simpa [hge, failureResult] using h
    · rw [if_neg hge]
      have hlt : ls.attempts < mr := Nat.lt_of_not_le hge
      cases hlk : lookupA ls.st.providers name with
      | none =>
        simp only [hlk]
        exact ih ls h
      | some pr =>
        simp only [hlk]
        by_cases hsk : (ls.st.rate_limiter.is_rate_limited name now &&
            decide (ls.st.rate_limiter.time_until_available name now > 0)) = true
        · simp only [hsk, if_true]
          exact ih _ h
        · rw [if_neg hsk]
          cases htp : AIRouter.tryProvider now name pr ls with
          | mk fst snd =>
            cases fst with
            | some r =>
              simp only [htp]
              have hs := tryProvider_some now name pr ls r snd htp
              have h2 : r.attempts = ls.attempts + 1 := by rw [hs.2.1, hs.2.2.2.1]
              show r.attempts ≤ mr
              omega
            | none =>
              simp only [htp]
              refine ih snd ?_
              have h2 := tryProvider_attempts now name pr ls
              rw [htp] at h2
              simp only [Prod.snd] at h2
              omega

theorem generateLoop_result_eq (now : Int) (mr : Nat) (cands : List String) (ls : LoopState) :
    (AIRouter.generateLoop now mr cands ls).1.attempts =
      (AIRouter.generateLoop now mr cands ls).2.attempts ∧
    (AIRouter.generateLoop now mr cands ls).1.errors =
      (AIRouter.generateLoop now mr cands ls).2.errors := by
  induction cands generalizing ls with
  | nil => simp [AIRouter.generateLoop, failureResult]
  | cons name rest ih =>
    unfold AIRouter.generateLoop
    by_cases hge : ls.attempts ≥ mr
    · simp [hge, failureResult]
    · rw [if_neg hge]
      cases hlk : lookupA ls.st.providers name with
      | none =>
        simp only [hlk]
        exact ih ls
      | some pr =>
        simp only [hlk]
        by_cases hsk : (ls.st.rate_limiter.is_rate_limited name now &&
            decide (ls.st.rate_limiter.time_until_available name now > 0)) = true
        · simp only [hsk, if_true]
          exact ih _
        · rw [if_neg hsk]
          cases htp : AIRouter.tryProvider now name pr ls with
          | mk fst snd =>
            cases fst with
            | some r =>
              simp only [htp]
              have hs := tryProvider_some now name pr ls r snd htp
              exact ⟨hs.2.1, hs.2.2.1⟩
            | none =>
              simp only [htp]
              exact ih snd

theorem generateLoop_shape (now : Int) (mr : Nat) (cands : List String) (ls : LoopState) :
    (AIRouter.generateLoop now mr cands ls).1.success = true ∨
    ((AIRouter.generateLoop now mr cands ls).1.content = "" ∧
     (AIRouter.generateLoop now mr cands ls).1.provider_used = "" ∧
     (AIRouter.generateLoop now mr cands ls).1.model_used = "" ∧
     (AIRouter.generateLoop now mr cands ls).1.tokens_used = none) := by
  induction cands generalizing ls with
  | nil => simp [AIRouter.generateLoop, failureResult]
  | cons name rest ih =>
    unfold AIRouter.generateLoop
    by_cases hge : ls.attempts ≥ mr
    · simp [hge, failureResult]
    · rw [if_neg hge]
      cases hlk : lookupA ls.st.providers name with
      | none =>
        simp only [hlk]
        exact ih ls
      | some pr =>
        simp only [hlk]
        by_cases hsk : (ls.st.rate_limiter.is_rate_limited name now &&
            decide (ls.st.rate_limiter.time_until_available name now > 0)) = true
        · simp only [hsk, if_true]
          exact ih _
        · rw [if_neg hsk]
          cases htp : AIRouter.tryProvider now name pr ls with
          | mk fst snd =>
            cases fst with
            | some r =>
              simp only [htp]
              exact Or.inl (tryProvider_some now name pr ls r snd htp).1
            | none =>
              simp only [htp]
              exact ih snd

theorem generateLoop_sem (now : Int) (mr : Nat) (cands : List String) (ls : LoopState)
    (q : String) :
    lookupA (AIRouter.generateLoop now mr cands ls).2.st.rate_limiter.semaphores q =
      lookupA ls.st.rate_limiter.semaphores q ∨
    (lookupA ls.st.rate_limiter.semaphores q = none ∧
     lookupA (AIRouter.generateLoop now mr cands ls).2.st.rate_limiter.semaphores q =
       some default_max_requests) := by
  induction cands generalizing ls with
  | nil => simp [AIRouter.generateLoop]
  | cons name rest ih =>
    unfold AIRouter.generateLoop
    by_cases hge : ls.attempts ≥ mr
    · simp [hge]
    · rw [if_neg hge]
      cases hlk : lookupA ls.st.providers name with
      | none =>
        simp only [hlk]
        exact ih ls
      | some pr =>
        simp only [hlk]
        by_cases hsk : (ls.st.rate_limiter.is_rate_limited name now &&
            decide (ls.st.rate_limiter.time_until_available name now > 0)) = true
        · simp only [hsk, if_true]
          exact ih _
        · rw [if_neg hsk]
          cases htp : AIRouter.tryProvider now name pr ls with
          | mk fst snd =>
            have hstep := tryProvider_sem now name pr ls q
            rw [htp] at hstep
            cases fst with
            | some r =>
              simp only [htp]
              by_cases hq : name = q
              · rw [if_pos hq] at hstep
                subst hq
                cases hold : lookupA ls.st.rate_limiter.semaphores name with
                | none =>
                  rw [hold] at hstep
                  exact Or.inr ⟨rfl, hstep⟩
                | some c =>
                  rw [hold] at hstep
                  simp only [Option.getD_some] at hstep
                  exact Or.inl hstep
              · rw [if_neg hq] at hstep
                exact Or.inl hstep
            | none =>
              simp only [htp]
              have hrest := ih snd
              by_cases hq : name = q
              · rw [if_pos hq] at hstep
                subst hq
                cases hold : lookupA ls.st.rate_limiter.semaphores name with
                | none =>
                  rw [hold] at hstep
                  rcases hrest with h1 | h1
                  · exact Or.inr ⟨rfl, by rw [h1, hstep]; rfl⟩
                  · exact Or.inr ⟨rfl, h1.2⟩
                | some c =>
                  rw [hold] at hstep
                  simp only [Option.getD_some] at hstep
                  rcases hrest with h1 | h1
                  · exact Or.inl (by rw [h1, hstep])
                  · rw [hstep] at h1
                    cases h1.1
              · rw [if_neg hq] at hstep
                rw [hstep] at hrest
                exact hrest

theorem determine_order_preserves (st : RouterState) (now : Int) (pref : Option String) :
    (AIRouter.determine_order st now pref).2.rate_limiter = st.rate_limiter ∧
    (AIRouter.determine_order st now pref).2.quota_manager = st.quota_manager ∧
    (AIRouter.determine_order st now pref).2.provider_priority = st.provider_priority := by
  simp only [AIRouter.determine_order]
  repeat' split
  all_goals exact ⟨rfl, rfl, rfl⟩

/-! ## C5: balanced acquire/release -/

/-- C5: slot balance.  First conjunct: one attempt — on the success path, the
reported-failure path, the adapter-exception path, and even the acquire
timeout — leaves the attempted provider's semaphore at its pre-acquire
value (10 when it was created by this very attempt) and every other
provider's semaphore untouched.  Second conjunct: a whole `generate` call
leaves every provider's semaphore either exactly as it was, or, when it did
not exist before, at its full initial value `default_max_requests`. -/
theorem c5_acquire_release_balanced :
    (∀ (now : Int) (name : String) (pr : Provider) (ls : LoopState) (q : String),
        lookupA (AIRouter.tryProvider now name pr ls).2.st.rate_limiter.semaphores q =
          if name = q
          then some ((lookupA ls.st.rate_limiter.semaphores name).getD default_max_requests)
          else lookupA ls.st.rate_limiter.semaphores q) ∧
    (∀ (st : RouterState) (now : Int) (preferred : Option String) (mr : Nat) (q : String),
        lookupA (AIRouter.generate st now preferred mr).2.st.rate_limiter.semaphores q =
          lookupA st.rate_limiter.semaphores q ∨
        (lookupA st.rate_limiter.semaphores q = none ∧
         lookupA (AIRouter.generate st now preferred mr).2.st.rate_limiter.semaphores q =
           some default_max_requests)) := by
  refine ⟨tryProvider_sem, ?_⟩
  intro st now preferred mr q
  unfold AIRouter.generate
  by_cases h : (AIRouter.determine_order st now preferred).1 = []
  · rw [if_pos h]
    exact Or.inl (by rw [(determine_order_preserves st now preferred).1])
  · rw [if_neg h]
    have hdo := (determine_order_preserves st now preferred).1
    have := generateLoop_sem now mr (AIRouter.determine_order st now preferred).1
      { st := (AIRouter.determine_order st now preferred).2, attempts := 0,
        errors := [], tried := [] } q
    rw [hdo] at this
    exact this

/-! ## C2: retry ceiling -/

/-- C2: the attempt count never exceeds `max_retries` for any call, and in
the concrete scenario of three ready providers that all fail with
`max_retries = 2`, exactly two attempts are made (providers A and B, in
order) and provider C's generate is never invoked. -/
theorem c2_retry_ceiling :
    (∀ (st : RouterState) (now : Int) (preferred : Option String) (mr : Nat),
        (AIRouter.generate st now preferred mr).1.attempts ≤ mr) ∧
    (AIRouter.generate stC2 100 none 2).1.attempts = 2 ∧
    (AIRouter.generate stC2 100 none 2).1.success = false ∧
    (AIRouter.generate stC2 100 none 2).2.tried = ["A", "B"] ∧
    "C" ∉ (AIRouter.generate stC2 100 none 2).2.tried := by
  refine ⟨?_, by decide, by decide, by decide, by decide⟩
  intro st now preferred mr
  unfold AIRouter.generate
  by_cases h : (AIRouter.determine_order st now preferred).1 = []
  · rw [if_pos h]
    exact Nat.zero_le mr
  · rw [if_neg h]
    exact generateLoop_attempts now mr _ _ (Nat.zero_le mr)

/-! ## C3: empty-candidate short-circuit -/

/-- C3: when the computed candidate list is empty, `generate` returns the
fixed failure outcome — success=false, empty content/provider/model, no
tokens, zero attempts, and exactly the single no-providers diagnostic —
without touching the rate limiter (so no acquire happens) or the quota
manager, and with an empty attempt trace. -/
theorem c3_empty_candidates (st : RouterState) (now : Int) (pref : Option String)
    (mr : Nat) (h : (AIRouter.determine_order st now pref).1 = []) :
    AIRouter.generate st now pref mr =
      ({ success := false, content := "", provider_used := "", model_used := "",
         tokens_used := none, attempts := 0,
         errors := ["No providers available. Please configure at least one API key."] },
       { st := (AIRouter.determine_order st now pref).2, attempts := 0,
         errors := [], tried := [] }) ∧
    (AIRouter.determine_order st now pref).2.rate_limiter = st.rate_limiter ∧
    (AIRouter.determine_order st now pref).2.quota_manager = st.quota_manager := by
  refine ⟨?_, (determine_order_preserves st now pref).1,
          (determine_order_preserves st now pref).2.1⟩
  unfold AIRouter.generate
  rw [if_pos h]

/-- C3 witness: no provider configured at all. -/
theorem c3_empty_candidates_witness :
    (AIRouter.generate stC3 0 none 3).1.attempts = 0 ∧
    (AIRouter.generate stC3 0 none 3).1.success = false ∧
    (AIRouter.generate stC3 0 none 3).1.errors =
      ["No providers available. Please configure at least one API key."] ∧
    (AIRouter.generate stC3 0 none 3).2.tried = [] := by
  rw [(c3_empty_candidates stC3 0 none 3 (by decide)).1]
  exact ⟨rfl, rfl, rfl, rfl⟩

/-! ## C6: total-failure behaviour without exceptions -/

/-- C6: the router's generate is a total function of the modelled state (no
exception reaches the caller — the adapter-exception and acquire-timeout
paths are both rendered as recorded diagnostics).  First conjunct: every
outcome is either a success or the well-formed failure shape.  Second
conjunct: an adapter exception after a successful acquire produces no
result (the loop continues), appends "{provider}: {message}" to the
diagnostics, counts the attempt, and marks the adapter errored with that
message.  Third conjunct: the outcome returned by the candidate loop always
carries exactly the loop's accumulated attempt count and diagnostics. -/
theorem c6_never_raises_failure_shape :
    (∀ (st : RouterState) (now : Int) (preferred : Option String) (mr : Nat),
        (AIRouter.generate st now preferred mr).1.success = true ∨
        ((AIRouter.generate st now preferred mr).1.content = "" ∧
         (AIRouter.generate st now preferred mr).1.provider_used = "" ∧
         (AIRouter.generate st now preferred mr).1.model_used = "" ∧
         (AIRouter.generate st now preferred mr).1.tokens_used = none)) ∧
    (∀ (now : Int) (name : String) (pr : Provider) (ls : LoopState) (msg : String)
        (rl1 : RateLimiter),
        pr.behavior = AdapterBehavior.raise msg →
        ls.st.rate_limiter.acquire name now = AcquireResult.ok rl1 →
        ((AIRouter.tryProvider now name pr ls).1 = none ∧
         (AIRouter.tryProvider now name pr ls).2.errors =
           ls.errors ++ [name ++ ": " ++ msg] ∧
         (AIRouter.tryProvider now name pr ls).2.attempts = ls.attempts + 1 ∧
         lookupA (AIRouter.tryProvider now name pr ls).2.st.providers name =
           some { pr with state := pr.state.set_error msg } ∧
         (pr.state.set_error msg).status = ProviderStatus.error ∧
         (pr.state.set_error msg).last_error = some msg)) ∧
    (∀ (now : Int) (mr : Nat) (cands : List String) (ls : LoopState),
        (AIRouter.generateLoop now mr cands ls).1.attempts =
          (AIRouter.generateLoop now mr cands ls).2.attempts ∧
        (AIRouter.generateLoop now mr cands ls).1.errors =
          (AIRouter.generateLoop now mr cands ls).2.errors) := by
  refine ⟨?_, ?_, generateLoop_result_eq⟩
  · intro st now preferred mr
    unfold AIRouter.generate
    by_cases h : (AIRouter.determine_order st now preferred).1 = []
    · rw [if_pos h]
      exact Or.inr ⟨rfl, rfl, rfl, rfl⟩
    · rw [if_neg h]
      exact generateLoop_shape now mr _ _
  · intro now name pr ls msg rl1 hb hacq
    unfold AIRouter.tryProvider
    simp only [hacq, hb]
    refine ⟨by trivial, by trivial, by trivial, ?_, by trivial, by trivial⟩
    rw [lookupA_updateAssoc, if_pos rfl]

/-- C6 witness: a concrete provider raising "kaput" after a fresh acquire. -/
theorem c6_never_raises_failure_shape_witness :
    (AIRouter.tryProvider 100 "A"
        { state := readyState, behavior := AdapterBehavior.raise "kaput" }
        { st := stC6, attempts := 0, errors := [], tried := [] }).1 = none ∧
    (AIRouter.tryProvider 100 "A"
        { state := readyState, behavior := AdapterBehavior.raise "kaput" }
        { st := stC6, attempts := 0, errors := [], tried := [] }).2.errors =
      ["A: kaput"] := by
  have h := c6_never_raises_failure_shape.2.1 100 "A"
    { state := readyState, behavior := AdapterBehavior.raise "kaput" }
    { st := stC6, attempts := 0, errors := [], tried := [] } "kaput"
    { limits := [], semaphores := [("A", 9)] } rfl (by decide)
  exact ⟨h.1, h.2.1⟩

theorem nodup_dedupFold (l acc : List String) (h : acc.Nodup) :
    (l.foldl (fun acc p => if p ∈ acc then acc else acc ++ [p]) acc).Nodup := by
  induction l generalizing acc with
  | nil => exact h
  | cons x xs ih =>
    simp only [List.foldl_cons]
    by_cases hx : x ∈ acc
    · rw [if_pos hx]
      exact ih acc h
    · rw [if_neg hx]
      refine ih _ ?_
      rw [List.nodup_append]
      refine ⟨h, List.nodup_singleton x, ?_⟩
      intro a ha hmem
      rw [List.mem_singleton] at hmem
      subst hmem
      exact hx ha

theorem prio_nodup (st : RouterState) (now : Int) (hcfg : st.provider_priority.Nodup) :
    (st.get_provider_priority now).1.Nodup := by
  simp only [RouterState.get_provider_priority]
  exact nodup_dedupFold _ _ (hcfg.filter _)

/-! ## C1: candidate ordering and rate-limit skipping -/

/-- C1 counterexample to the claim as stated: a candidate that is currently
rate-limited (exhausted budget, no reset time, hence wait time 0) is *not*
skipped — the `if wait_time > 0` guard falls through, the provider is
attempted (after the acquire-side optimistic reset) and the attempt count
is incremented, with no rate-limited diagnostic recorded. -/
theorem c1_rate_limited_attempted_cex :
    stC1x.rate_limiter.is_rate_limited "P" 100 = true ∧
    (AIRouter.generate stC1x 100 (some "P") 3).2.tried = ["P"] ∧
    (AIRouter.generate stC1x 100 (some "P") 3).1.attempts = 1 ∧
    (AIRouter.generate stC1x 100 (some "P") 3).1.errors = ["P: boom"] := by
  refine ⟨by decide, by decide, by decide, by decide⟩

/-- C1 (amended: the skip applies to a candidate rate-limited with a
*positive* wait time; a rate-limited candidate with zero wait falls through
and is attempted): (1) a truthy, configured, available preferred provider
heads the candidate list; (2) the candidate list has no duplicates whenever
the configured priority list has none; (3) a candidate rate-limited with a
positive wait is skipped — same attempt count, the wait-time diagnostic
appended, iteration continuing with the rest; (4)-(9) the concrete scenario
{A: rate-limited at the limiter with a 30-unit wait, B: ready, C: ready},
preferred=A: the candidate list is [A, B, C]; A is skipped without an
attempt, leaving only the wait-time diagnostic; with B succeeding the
outcome is provider_used=B, attempts=1, with trace [B]; with B and C both
failing the trace is [B, C] — B tried before C — and attempts=2. -/
theorem c1_preferred_order :
    (∀ (now : Int) (mr : Nat) (name : String) (rest : List String) (pr : Provider)
        (ls : LoopState), ¬ ls.attempts ≥ mr →
        lookupA ls.st.providers name = some pr →
        ls.st.rate_limiter.is_rate_limited name now = true →
        ls.st.rate_limiter.time_until_available name now > 0 →
        AIRouter.generateLoop now mr (name :: rest) ls =
          AIRouter.generateLoop now mr rest
            { ls with errors := ls.errors ++
                [rateLimitedDiag name (ls.st.rate_limiter.time_until_available name now)] }) ∧
    (∀ (st : RouterState) (now : Int) (pp : String) (pr : Provider), ¬ pp = "" →
        lookupA st.providers pp = some pr → (pr.state.is_available now).1 = true →
        (AIRouter.determine_order st now (some pp)).1.head? = some pp) ∧
    (∀ (st : RouterState) (now : Int) (pref : Option String),
        st.provider_priority.Nodup →
        ((AIRouter.determine_order st now pref).1).Nodup) ∧
    (AIRouter.generate stC1 100 (some "A") 3).1 =
      { success := true, content := "out", provider_used := "B", model_used := "m",
        tokens_used := some 5, attempts := 1,
        errors := ["A: Rate limited, wait 30s"] } ∧
    (AIRouter.generate stC1 100 (some "A") 3).2.tried = ["B"] ∧
    (AIRouter.determine_order stC1 100 (some "A")).1 = ["A", "B", "C"] ∧
    (AIRouter.generate stC1f 100 (some "A") 3).2.tried = ["B", "C"] ∧
    (AIRouter.generate stC1f 100 (some "A") 3).1.attempts = 2 ∧
    (AIRouter.generate stC1f 100 (some "A") 3).1.errors =
      ["A: Rate limited, wait 30s", "B: boom", "C: boom"] := by
  refine ⟨?_, ?_, ?_, by decide, by decide, by decide, by decide, by decide, by decide⟩
  · intro now mr name rest pr ls hge hlk hlim hwait
    conv_lhs => rw [AIRouter.generateLoop]
    rw [if_neg hge]
    simp only [hlk]
    rw [if_pos (by simp [hlim, hwait])]
  · intro st now pp pr h0 hlk hav
    simp only [AIRouter.determine_order]
    rw [if_neg h0, hlk]
    simp [hav]
  · intro st now pref hcfg
    cases pref with
    | none => exact prio_nodup st now hcfg
    | some pp =>
      by_cases h0 : pp = ""
      · subst h0
        simp only [AIRouter.determine_order, if_pos rfl]
        exact prio_nodup st now hcfg
      · cases hlk : lookupA st.providers pp with
        | none =>
          simp only [AIRouter.determine_order]
          rw [if_neg h0]
          simp only [hlk]
          exact prio_nodup st now hcfg
        | some pr =>
          simp only [AIRouter.determine_order]
          rw [if_neg h0]
          simp only [hlk]
          by_cases hav : (pr.state.is_available now).1 = true
          · rw [if_pos hav]
            rw [List.nodup_cons]
            constructor
            · intro hmem
              rw [List.mem_filter] at hmem
              simp at hmem
            · exact List.Nodup.filter _ (prio_nodup _ now hcfg)
          · rw [if_neg hav]
            exact prio_nodup _ now hcfg

/-- C1 witness: the general ordering facts at the concrete C1 scenario. -/
theorem c1_preferred_order_witness :
    (AIRouter.determine_order stC1 100 (some "A")).1.head? = some "A" ∧
    ((AIRouter.determine_order stC1 100 (some "A")).1).Nodup := by
  refine ⟨c1_preferred_order.2.1 stC1 100 "A"
      { state := readyState, behavior := AdapterBehavior.ret failGen }
      (by decide) (by decide) (by decide),
    c1_preferred_order.2.2.1 stC1 100 (some "A") (by decide)⟩

/-! ## C7: streaming single-provider failure semantics -/

theorem data_append (a b : String) : (a ++ b).data = a.data ++ b.data := rfl

theorem isPrefixOf_append_self (l1 l2 : List Char) : l1.isPrefixOf (l1 ++ l2) = true := by
  induction l1 with
  | nil => simp [List.isPrefixOf]
  | cons c cs ih => simp [List.isPrefixOf, ih]

theorem isErrorMarker_marker (m : String) :
    isErrorMarker ("[Error: " ++ m ++ "]") = true := by
  unfold isErrorMarker
  rw [data_append, data_append, List.append_assoc]
  have h : ("[Error: ".data : List Char) = "[Error:".data ++ [' '] := by decide
  rw [h, List.append_assoc]
  exact isPrefixOf_append_self _ _

/-- C7: a streaming call whose chosen provider's stream hits a mid-stream
transport fault (rendered by the groq adapter as a final bracketed error
chunk) delivers the partial deltas followed by exactly one error-marker
fragment, releases the provider's rate-limit slot (the semaphore ends at
its pre-acquire value), and touches no other provider — every other
provider's adapter entry and semaphore are exactly as before, and the
output is built solely from the chosen provider's stream. -/
theorem c7_stream_single_error (st : RouterState) (now : Int) (name : String)
    (pr : Provider) (deltas : List String) (m : String)
    (h0 : ¬ name = "") (hlk : lookupA st.providers name = some pr)
    (hav : (pr.state.is_available now).1 = true)
    (hchunks : pr.stream_chunks =
      (GroqProvider.generate_stream pr.state false deltas (some m)).1)
    (hraise : pr.stream_raises = none)
    (hdeltas : ∀ c ∈ deltas, isErrorMarker c = false)
    (hsem : ¬ lookupA st.rate_limiter.semaphores name = some 0) :
    (AIRouter.generate_with_stream st now (some name)).1 =
      deltas ++ ["[Error: " ++ m ++ "]"] ∧
    List.countP isErrorMarker (AIRouter.generate_with_stream st now (some name)).1 = 1 ∧
    lookupA (AIRouter.generate_with_stream st now (some name)).2.rate_limiter.semaphores
        name =
      some ((lookupA st.rate_limiter.semaphores name).getD default_max_requests) ∧
    (∀ q, ¬ name = q →
        lookupA (AIRouter.generate_with_stream st now (some name)).2.providers q =
          lookupA st.providers q ∧
        lookupA (AIRouter.generate_with_stream st now (some name)).2.rate_limiter.semaphores
            q =
          lookupA st.rate_limiter.semaphores q) := by
  have hok : ∃ rl, st.rate_limiter.acquire name now = AcquireResult.ok rl := by
    cases hacq : st.rate_limiter.acquire name now with
    | ok rl => exact ⟨rl, rfl⟩
    | timeout rl => exact absurd (acquire_timeout _ _ _ _ hacq).1 hsem
  obtain ⟨rl, hacq⟩ := hok
  have hchoose : AIRouter.streamChoose st now (some name) =
      (some name, { st with providers := updateAssoc st.providers name ({ pr with state := (pr.state.is_available now).2 }) }) := by
    simp only [AIRouter.streamChoose]
    rw [if_neg h0]
    simp only [hlk]
    rw [if_pos hav]
  have hlk2 : lookupA (updateAssoc st.providers name ({ pr with state := (pr.state.is_available now).2 })) name = some ({ pr with state := (pr.state.is_available now).2 }) := by
    rw [lookupA_updateAssoc, if_pos rfl]
  have hmain : AIRouter.generate_with_stream st now (some name) =
      (deltas ++ ["[Error: " ++ m ++ "]"],
       { st with providers := updateAssoc st.providers name ({ pr with state := (pr.state.is_available now).2 }), rate_limiter := rl.release name }) := by
    simp only [AIRouter.generate_with_stream]
    rw [hchoose]
    simp only [hlk2, hacq]
    simp [hchunks, hraise, GroqProvider.generate_stream]
  have hzero : List.countP isErrorMarker deltas = 0 :=
    List.countP_eq_zero.mpr (fun c hc => by simp [hdeltas c hc])
  refine ⟨by rw [hmain], ?_, ?_, ?_⟩
  · rw [hmain]
    simp [List.countP_append, List.countP_cons, hzero, isErrorMarker_marker]
  · rw [hmain]
    simp only []
    rw [release_after_ok st.rate_limiter now rl rl name hacq rfl name, if_pos rfl]
  · intro q hq
    rw [hmain]
    constructor
    · simp only []
      rw [lookupA_updateAssoc, if_neg hq]
    · simp only []
      rw [release_after_ok st.rate_limiter now rl rl name hacq rfl q, if_neg hq]

/-- C7 witness: the concrete two-provider streaming scenario `stC7`. -/
theorem c7_stream_single_error_witness :
    (AIRouter.generate_with_stream stC7 100 (some "G")).1 =
      ["hel", "lo"] ++ ["[Error: " ++ "net down" ++ "]"] ∧
    List.countP isErrorMarker (AIRouter.generate_with_stream stC7 100 (some "G")).1 = 1 := by
  have h := c7_stream_single_error stC7 100 "G"
    { state := readyState, behavior := AdapterBehavior.ret failGen,
      stream_chunks := (GroqProvider.generate_stream readyState false
        ["hel", "lo"] (some "net down")).1,
      stream_raises := none }
    ["hel", "lo"] "net down" (by decide) (by decide) (by decide) (by decide) rfl
    (by intro c hc; fin_cases hc <;> decide) (by decide)
  exact ⟨h.1, h.2.1⟩
